import Mathlib

/-!
Verification of the Reels-bot content-generation pipeline.

Python values are embedded shallowly: `str` becomes `List Char` (`PyStr`),
`dict` becomes an insertion-ordered association list (`PyDict`), exceptions
become `Option`/`Except`.  Each definition below is a direct translation of
the function of the same name in `app/services/content_generator.py`,
`app/services/music_service.py` or `app/utils/prompt_loader.py`.
-/

/-- Python `str`, modelled as its list of characters. -/
abbrev PyStr := List Char

/-- Convenience conversion from a Lean string literal to `PyStr`. -/
def pys (s : String) : PyStr := s.toList

/-- ASCII whitespace recognised by Python `str.strip`/`str.split` (the inputs
of this program are ASCII; Python additionally strips non-ASCII Unicode
whitespace, which never occurs here). -/
def pyIsSpace (c : Char) : Bool :=
  c = ' ' || c = '\t' || c = '\n' || c = '\r' || c = '\x0b' || c = '\x0c'

/-- Strip characters satisfying `p` from both ends (Python `str.strip(chars)`). -/
def pyStripP (p : Char → Bool) (s : PyStr) : PyStr :=
  ((s.dropWhile p).reverse.dropWhile p).reverse

/-- Python `str.strip()` (no argument: strips whitespace). -/
def pyStrip (s : PyStr) : PyStr := pyStripP pyIsSpace s

/-- Python `str.lower()` (ASCII case mapping; all labels involved are ASCII). -/
def pyLower (s : PyStr) : PyStr := s.map Char.toLower

/-- Python `str.split(sep)` for a one-character separator: keeps empty parts,
returns `n+1` parts for `n` separators. `List.splitOn` has exactly these
semantics. -/
def pySplit (sep : Char) (s : PyStr) : List PyStr := s.splitOn sep

/-- Python `str.split()` (no argument): split on whitespace runs, discarding
empty fragments. -/
def pySplitWs (s : PyStr) : List PyStr :=
  (s.splitOnP pyIsSpace).filter (fun t => !t.isEmpty)

/-- Python `str.split(sep, 1)` restricted to the two-part case: `some (a, b)`
when the separator occurs (`a` before the first occurrence, `b` after), `none`
when it does not (in which case Python's `[1]` indexing raises `IndexError`). -/
def pySplitOnce (sep : Char) : PyStr → Option (PyStr × PyStr)
  | [] => none
  | c :: rest =>
    if c = sep then some ([], rest)
    else
      match pySplitOnce sep rest with
      | none => none
      | some (a, b) => some (c :: a, b)

/-- A Python value as it occurs in this pipeline's dictionaries: strings,
lists, nested dicts, ints, booleans and `None`. -/
inductive PyVal where
  | str (s : PyStr)
  | vlist (xs : List PyVal)
  | vdict (xs : List (PyStr × PyVal))
  | vint (n : Int)
  | vbool (b : Bool)
  | vnone
deriving Repr

/-- A Python `dict` with string keys: an insertion-ordered association list. -/
abbrev PyDict := List (PyStr × PyVal)

/-- Python `d.get(k)`: the value of the first (unique) matching key. -/
def dget (d : PyDict) (k : PyStr) : Option PyVal :=
  (d.find? (fun kv => kv.1 == k)).map (fun kv => kv.2)

/-- Python `d[k] = v`: update the existing entry in place, else append. -/
def dset : PyDict → PyStr → PyVal → PyDict
  | [], k, v => [(k, v)]
  | kv :: rest, k, v =>
    if kv.1 == k then (k, v) :: rest else kv :: dset rest k v

/-- Python truthiness for the values above. -/
def pyTruthy : PyVal → Bool
  | .str s => !s.isEmpty
  | .vlist xs => !xs.isEmpty
  | .vdict xs => !xs.isEmpty
  | .vint n => n != 0
  | .vbool b => b
  | .vnone => false

/-- Python `len`: defined on strings, lists and dicts; `none` models the
`TypeError` raised on other values. -/
def pyLenOpt : PyVal → Option Nat
  | .str s => some s.length
  | .vlist xs => some xs.length
  | .vdict xs => some xs.length
  | .vint _ => none
  | .vbool _ => none
  | .vnone => none

/-! ## Timestamp synthesizer (`_generate_timestamps`) -/

/-- One element of the `timestamps` list.  The Python code builds the dict
`{"start": …, "end": …, "text": …, "type": "narration"}`; the `end` key is
called `stop` here because `end` is a Lean keyword. -/
structure TimestampSegment where
  start : Nat
  stop : Nat
  text : PyStr
  type : PyStr
deriving Repr, DecidableEq

/-- `sentences = [s.strip() for s in script.split(".") if s.strip()]`. -/
def sentencesOf (script : PyStr) : List PyStr :=
  ((pySplit '.' script).map pyStrip).filter (fun s => !s.isEmpty)

/-- The accumulation loop of `_generate_timestamps`, carrying `current_time`. -/
def layoutTimestamps (t : Nat) : List PyStr → List TimestampSegment
  | [] => []
  | s :: rest =>
    let duration := max 2 (min 4 (s.length / 20))
    { start := t, stop := t + duration, text := s, type := pys "narration" }
      :: layoutTimestamps (t + duration) rest

/-- `_generate_timestamps` (content_generator.py lines 226-246).  The early
`return []` for an empty sentence list coincides with the loop on `[]`. -/
def generate_timestamps (script : PyStr) : List TimestampSegment :=
  layoutTimestamps 0 (sentencesOf script)

/-- Embedding of a timestamp dict back into `PyVal` (the literal dict the
Python loop appends). -/
def timestampToPyVal (seg : TimestampSegment) : PyVal :=
  .vdict [(pys "start", .vint seg.start), (pys "end", .vint seg.stop),
          (pys "text", .str seg.text), (pys "type", .str seg.type)]

/-! ## JSON decoding (`json.loads`, Python standard library)

`_parse_generated_content` hands any raw text whose stripped form starts with
a brace to `json.loads`.  The decoder below models `json.loads` for the JSON
subset that can describe this program's content records: objects with string
keys, arrays, strings (with the single-character escapes), integers, booleans
and null.  Fractional/exponent numbers and `\uXXXX` escapes are rejected,
which only narrows the domain, never changes a defined result.  Duplicate
object keys follow Python semantics: first occurrence keeps its position,
later occurrences overwrite the value. -/

/-- JSON insignificant whitespace. -/
def jsonWs (c : Char) : Bool := c = ' ' || c = '\t' || c = '\n' || c = '\r'

/-- Drop leading JSON whitespace. -/
def skipWs (s : PyStr) : PyStr := s.dropWhile jsonWs

/-- Single-character JSON string escapes. -/
def jsonEsc (c : Char) : Option Char :=
  if c = '\"' then some '\"'
  else if c = '\\' then some '\\'
  else if c = '/' then some '/'
  else if c = 'n' then some '\n'
  else if c = 't' then some '\t'
  else if c = 'r' then some '\r'
  else if c = 'b' then some (Char.ofNat 8)
  else if c = 'f' then some (Char.ofNat 12)
  else none

/-- Parse the body of a JSON string after the opening quote; returns the
decoded content and the input remaining after the closing quote. -/
def jsonStrAux : PyStr → Option (PyStr × PyStr)
  | [] => none
  | '\"' :: rest => some ([], rest)
  | '\\' :: c :: rest =>
    match jsonEsc c with
    | none => none
    | some e =>
      match jsonStrAux rest with
      | none => none
      | some (s, r) => some (e :: s, r)
  | c :: rest =>
    match jsonStrAux rest with
    | none => none
    | some (s, r) => some (c :: s, r)

/-- Decimal digits to a natural number. -/
def digitsToNat (ds : PyStr) : Nat :=
  ds.foldl (fun n c => 10 * n + (c.toNat - 48)) 0

/-- Parse a JSON integer (optionally negative; fraction/exponent rejected). -/
def jsonNum (s : PyStr) : Option (PyVal × PyStr) :=
  let neg : Bool := s.head? = some '-'
  let s1 := if neg then s.drop 1 else s
  let ds := s1.takeWhile Char.isDigit
  let rest := s1.dropWhile Char.isDigit
  if ds.isEmpty then none
  else if (rest.head?.map fun c => c = '.' || c = 'e' || c = 'E').getD false then none
  else some (.vint (if neg then -(digitsToNat ds : Int) else (digitsToNat ds : Int)), rest)

mutual

/-- Parse one JSON value (fuel-indexed recursion). -/
def jsonVal : Nat → PyStr → Option (PyVal × PyStr)
  | 0, _ => none
  | f + 1, s =>
    match skipWs s with
    | '\"' :: rest =>
      match jsonStrAux rest with
      | none => none
      | some (str, r) => some (.str str, r)
    | '[' :: rest =>
      match skipWs rest with
      | ']' :: r => some (.vlist [], r)
      | r => match jsonItems f r with
        | none => none
        | some (vs, r2) => some (.vlist vs, r2)
    | '\x7b' :: rest =>
      match skipWs rest with
      | '\x7d' :: r => some (.vdict [], r)
      | r => match jsonMembers f r with
        | none => none
        | some (kvs, r2) =>
          some (.vdict (kvs.foldl (fun d kv => dset d kv.1 kv.2) []), r2)
    | 't' :: 'r' :: 'u' :: 'e' :: rest => some (.vbool true, rest)
    | 'f' :: 'a' :: 'l' :: 's' :: 'e' :: rest => some (.vbool false, rest)
    | 'n' :: 'u' :: 'l' :: 'l' :: rest => some (.vnone, rest)
    | s2 => jsonNum s2

/-- Parse the comma-separated items of a non-empty JSON array, including the
closing bracket. -/
def jsonItems : Nat → PyStr → Option (List PyVal × PyStr)
  | 0, _ => none
  | f + 1, s =>
    match jsonVal f s with
    | none => none
    | some (v, r) =>
      match skipWs r with
      | ',' :: r2 =>
        match jsonItems f r2 with
        | none => none
        | some (vs, r3) => some (v :: vs, r3)
      | ']' :: r2 => some ([v], r2)
      | _ => none

/-- Parse the comma-separated members of a non-empty JSON object, including
the closing brace. -/
def jsonMembers : Nat → PyStr → Option (List (PyStr × PyVal) × PyStr)
  | 0, _ => none
  | f + 1, s =>
    match skipWs s with
    | '\"' :: rest =>
      match jsonStrAux rest with
      | none => none
      | some (k, r) =>
        match skipWs r with
        | ':' :: r2 =>
          match jsonVal f r2 with
          | none => none
          | some (v, r3) =>
            match skipWs r3 with
            | ',' :: r4 =>
              match jsonMembers f r4 with
              | none => none
              | some (kvs, r5) => some ((k, v) :: kvs, r5)
            | '\x7d' :: r4 => some ([(k, v)], r4)
            | _ => none
        | _ => none
    | _ => none

end

/-- `json.loads` restricted to top-level objects — the only shape it can
succeed on here, since the caller guards with `startswith("{")`.  `none`
models the `JSONDecodeError` that `json.loads` raises. -/
def json_loads (raw : PyStr) : Option PyDict :=
  match jsonVal (raw.length + 1) raw with
  | some (.vdict d, rest) => if (skipWs rest).isEmpty then some d else none
  | _ => none

/-! ## Response parser (`_parse_generated_content`) -/

/-- Error kinds of the pipeline: the repository's `ContentGenerationError`
versus every other Python exception (`Exception` subclasses seen only through
`str(e)`). -/
inductive PyErrKind where
  | contentGenerationError
  | otherError
deriving Repr, DecidableEq

/-- A raised Python exception, reduced to its kind and its `str(e)` message. -/
structure PyErr where
  kind : PyErrKind
  msg : PyStr
deriving Repr, DecidableEq

/-- Python's substring test `needle in hay`. -/
def strContains (needle : PyStr) : PyStr → Bool
  | [] => needle.isEmpty
  | c :: rest => needle.isPrefixOf (c :: rest) || strContains needle rest

/-- The open section of the line-oriented scan (`current_section`; `none`
models Python `None`). -/
inductive ParseSect where
  | hook
  | storyline
  | script
  | hashtags
deriving Repr, DecidableEq

/-- The loop state of the line-oriented scan: the `content` dict's five
fields plus `current_section`. -/
structure ParseState where
  hook : PyStr
  storyline : PyStr
  script : PyStr
  timestamps : List TimestampSegment
  hashtags : List PyStr
  cur : Option ParseSect
deriving Repr

/-- `content = {"hook": "", "storyline": "", "script": "", "timestamps": [],
"hashtags": []}` with `current_section = None`. -/
def initParseState : ParseState :=
  { hook := [], storyline := [], script := [], timestamps := [], hashtags := [], cur := none }

/-- `[tag.strip("#").strip() for tag in text.split() if tag.startswith("#")]`. -/
def extractTags (text : PyStr) : List PyStr :=
  ((pySplitWs text).filter (fun t => t.head? = some '#')).map
    (fun t => pyStrip (pyStripP (fun c => c = '#') t))

/-- One iteration of the `for line in lines` loop (content_generator.py
lines 190-214).  `none` models an exception escaping the iteration — only
possible through the `split(":", 1)[1]` indexing, which the enclosing `try`
turns into a `ContentGenerationError`. -/
def processLine (st : ParseState) (rawLine : PyStr) : Option ParseState :=
  let line := pyStrip rawLine
  if line.isEmpty then some st
  else if strContains (pys "hook:") (pyLower line) then
    match pySplitOnce ':' line with
    | none => none
    | some (_, rest) => some { st with hook := pyStrip rest, cur := some .hook }
  else if strContains (pys "storyline:") (pyLower line) then
    match pySplitOnce ':' line with
    | none => none
    | some (_, rest) => some { st with storyline := pyStrip rest, cur := some .storyline }
  else if strContains (pys "script:") (pyLower line) then
    match pySplitOnce ':' line with
    | none => none
    | some (_, rest) => some { st with script := pyStrip rest, cur := some .script }
  else if strContains (pys "hashtags:") (pyLower line) then
    match pySplitOnce ':' line with
    | none => none
    | some (_, rest) =>
      some { st with hashtags := extractTags (pyStrip rest), cur := some .hashtags }
  else
    match st.cur with
    | none => some st
    | some .hook => some { st with hook := st.hook ++ ' ' :: line }
    | some .storyline => some { st with storyline := st.storyline ++ ' ' :: line }
    | some .script => some { st with script := st.script ++ ' ' :: line }
    | some .hashtags =>
      if line.head? = some '#' then
        some { st with hashtags := st.hashtags ++ extractTags line }
      else some st

/-- The `content` dict assembled by the text branch, in Python insertion
order; `timestamps` is overwritten in place by the synthesis step when the
script is non-empty. -/
def parseStateToDict (st : ParseState) : PyDict :=
  let ts := if st.script.isEmpty then st.timestamps else generate_timestamps st.script
  [(pys "hook", .str st.hook), (pys "storyline", .str st.storyline),
   (pys "script", .str st.script),
   (pys "timestamps", .vlist (ts.map timestampToPyVal)),
   (pys "hashtags", .vlist (st.hashtags.map PyVal.str))]

/-- `_parse_generated_content` (content_generator.py lines 171-224).  The
enclosing `try`/`except` converts every exception of either branch into
`ContentGenerationError("Failed to parse generated content")`. -/
def parse_generated_content (raw : PyStr) : Except PyErr PyDict :=
  let parseErr : PyErr :=
    { kind := .contentGenerationError, msg := pys "Failed to parse generated content" }
  if (pyStrip raw).head? = some '\x7b' then
    match json_loads raw with
    | some d => .ok d
    | none => .error parseErr
  else
    match (pySplit '\n' raw).foldlM processLine initParseState with
    | none => .error parseErr
    | some st => .ok (parseStateToDict st)

/-! ## Quality scorer (`_calculate_quality_score`) -/

/-- One `if content.get(k) and len(content[k]) <cond>: score += pts` signal:
`some 0` when the key is missing or falsy, `some pts`/`some 0` from the length
test, `none` when `len` is undefined for the stored value (`TypeError`). -/
def fieldScore (content : PyDict) (k : PyStr) (cond : Nat → Bool) (pts : Nat) : Option Nat :=
  match dget content k with
  | none => some 0
  | some v =>
    if pyTruthy v then
      match pyLenOpt v with
      | some len => some (if cond len then pts else 0)
      | none => none
    else some 0

/-- `_calculate_quality_score` (content_generator.py lines 248-264). -/
def calculate_quality_score (content : PyDict) : Option Nat := do
  let s1 ← fieldScore content (pys "hook") (fun len => len > 10) 2
  let s2 ← fieldScore content (pys "storyline") (fun len => len > 20) 2
  let s3 ← fieldScore content (pys "script") (fun len => len > 50) 3
  let s4 ← fieldScore content (pys "hashtags") (fun len => len ≥ 3) 2
  let s5 : Nat :=
    match dget content (pys "timestamps") with
    | none => 0
    | some v => if pyTruthy v then 1 else 0
  pure (min 10 (s1 + s2 + s3 + s4 + s5))

/-! ## Music suggestion adapter (`music_service.py`)

The Spotify client itself is external: whether the client was constructed is
a `Bool` (`self.spotify is not None`), and the outcome of the one catalog
call `self.spotify.search(...)` is an `Except` parameter (the query built by
`_build_search_query` and the feature map of `_map_tone_to_features` only
feed that external call, so they are absorbed by the parameter). -/

/-- A track dict as returned by the catalog search.  `preview_url` is `none`
for JSON null or a missing key (both falsy and both handled by `.get`);
`popularity` is `none` for a missing key (`track.get('popularity', 0)`). -/
structure Track where
  name : PyStr
  artists : List PyStr
  spotify_url : PyStr
  preview_url : Option PyStr
  duration_ms : Int
  popularity : Option Int
deriving Repr, DecidableEq

/-- A suggestion dict assembled by `get_music_suggestions` or
`_get_fallback_suggestions`.  `note` is present only on fallback entries. -/
structure MusicSuggestion where
  name : PyStr
  artist : PyStr
  spotify_url : PyStr
  preview_url : Option PyStr
  duration_ms : Int
  popularity : Int
  energy_level : PyStr
  platform_suitable : PyStr
  tone_match : PyStr
  note : Option PyStr
deriving Repr, DecidableEq

/-- The `duration_limits` lookup with its `.get(platform, 90000)` default
(music_service.py lines 145-151), in milliseconds. -/
def duration_limits (platform : PyStr) : Int :=
  if platform = pys "tiktok" then 60000
  else if platform = pys "instagram" then 90000
  else if platform = pys "youtube" then 120000
  else 90000

/-- `_is_suitable_track` (music_service.py lines 142-163).  The source also
receives a `target_features` argument that its body never reads; it is
omitted here. -/
def is_suitable_track (track : Track) (platform : PyStr) : Bool :=
  if track.duration_ms > duration_limits platform then false
  else if !(match track.preview_url with
            | some s => !s.isEmpty
            | none => false) then false
  else if track.popularity.getD 0 < 20 then false
  else true

/-- `_estimate_energy_level` (music_service.py lines 165-175). -/
def estimate_energy_level (track : Track) : PyStr :=
  let popularity := track.popularity.getD 0
  if popularity > 70 then pys "high"
  else if popularity > 40 then pys "medium"
  else pys "low"

/-- The suggestion dict built for one suitable track (music_service.py lines
62-72).  The source reads `track['popularity']` directly; `_is_suitable_track`
has already rejected every track whose `popularity` key is missing (its
`.get` default 0 fails the `< 20` test), so `getD 0` coincides on every
track that reaches this point. -/
def trackSuggestion (track : Track) (tone platform : PyStr) : MusicSuggestion :=
  { name := track.name
    artist := List.intercalate (pys ", ") track.artists
    spotify_url := track.spotify_url
    preview_url := track.preview_url
    duration_ms := track.duration_ms
    popularity := track.popularity.getD 0
    energy_level := estimate_energy_level track
    platform_suitable := platform
    tone_match := tone
    note := none }

/-- The for-loop of `get_music_suggestions` (music_service.py lines 55-73):
break once `limit` suggestions are collected, append each suitable track. -/
def collectSuggestions (tone platform : PyStr) (limit : Nat)
    (acc : List MusicSuggestion) : List Track → List MusicSuggestion
  | [] => acc
  | track :: rest =>
    if acc.length ≥ limit then acc
    else if is_suitable_track track platform then
      collectSuggestions tone platform limit (acc ++ [trackSuggestion track tone platform]) rest
    else collectSuggestions tone platform limit acc rest

/-- The generic first fallback entry (music_service.py lines 179-192). -/
def genericFallback (tone platform : PyStr) : MusicSuggestion :=
  { name := pys "Upbeat Background Track"
    artist := pys "Generic Artist"
    spotify_url := []
    preview_url := some []
    duration_ms := 60000
    popularity := 50
    energy_level := pys "medium"
    platform_suitable := platform
    tone_match := tone
    note := some (pys "Spotify API not available - generic suggestion") }

/-- The `tone_suggestions` table (music_service.py lines 195-208): tone key
to `(name, energy_level)` overrides, in insertion order. -/
def toneSuggestionTable : List (PyStr × List (PyStr × PyStr)) :=
  [(pys "energetic",
    [(pys "High Energy Beat", pys "high"), (pys "Pump Up Track", pys "high")]),
   (pys "calm",
    [(pys "Peaceful Ambient", pys "low"), (pys "Gentle Background", pys "low")]),
   (pys "happy",
    [(pys "Joyful Melody", pys "medium"), (pys "Uplifting Tune", pys "medium")])]

/-- `_get_fallback_suggestions` (music_service.py lines 177-219): the generic
entry, plus — for the first table key that is a substring of the lowered
tone — copies of it with `name` and `energy_level` overridden; truncated to
three entries.  The `topic` argument is unread by the source body. -/
def get_fallback_suggestions (_topic tone platform : PyStr) : List MusicSuggestion :=
  let base := genericFallback tone platform
  let extra :=
    match toneSuggestionTable.find? (fun kv => strContains kv.1 (pyLower tone)) with
    | none => []
    | some kv =>
      kv.2.map (fun nv => { base with name := nv.1, energy_level := nv.2 })
  (base :: extra).take 3

/-- `get_music_suggestions` (music_service.py lines 29-83).  `spotifyOk`
is `self.spotify is not None`; `searchResult` is the outcome of the external
`self.spotify.search(...)` call, whose exceptions the `except` turns into the
fallback path. -/
def get_music_suggestions (spotifyOk : Bool) (searchResult : Except PyErr (List Track))
    (topic tone platform : PyStr) (limit : Nat) : List MusicSuggestion :=
  if !spotifyOk then get_fallback_suggestions topic tone platform
  else
    match searchResult with
    | .error _ => get_fallback_suggestions topic tone platform
    | .ok tracks =>
      let suggestions := collectSuggestions tone platform limit [] tracks
      if suggestions.isEmpty then get_fallback_suggestions topic tone platform
      else suggestions

/-! ## Template provider (`prompt_loader.py`) -/

/-- The externally managed template store: `os.path.exists` plus the outcome
of opening and reading a file (read failures are caught by the source). -/
structure TemplateFS where
  pathExists : PyStr → Bool
  readFile : PyStr → Except PyErr PyStr

/-- `os.path.join(self.templates_dir, f"{template_type}_{platform}.txt")`
with the default `templates_dir = "data/prompts"`. -/
def templatePath (template_type platform : PyStr) : PyStr :=
  pys "data/prompts/" ++ template_type ++ '_' :: platform ++ pys ".txt"

/-- `_get_content_generation_template` (prompt_loader.py lines 56-96); its
`platform` argument only names the placeholder text. -/
def content_generation_template : PyStr :=
  pys "\nYou are an expert social media content creator specializing in \x7bplatform\x7d content. Create a complete script for a viral \x7bplatform\x7d video about \"\x7btopic\x7d\".\n\nContent Requirements:\n- Topic: \x7btopic\x7d\n- Platform: \x7bplatform\x7d\n- Tone: \x7btone\x7d\n- Target Audience: \x7btarget_audience\x7d\n- Additional Requirements: \x7badditional_requirements\x7d\n\nPlatform Specifications:\n\x7bplatform_specs\x7d\n\nCurrent Trends:\n\x7btrends_data\x7d\n\nPlease generate a complete content package with the following structure:\n\nHOOK (First 3-5 seconds):\n[Create a compelling hook that grabs attention immediately and makes viewers want to watch more]\n\nSTORYLINE:\n[Outline the main narrative structure and flow of the content]\n\nSCRIPT:\n[Write the complete script with clear, engaging narration that flows naturally]\n\nHASHTAGS:\n[Provide 5-10 relevant hashtags including trending and niche-specific tags]\n\nMake sure the content is:\n1. Platform-optimized for maximum engagement\n2. Trend-aware and current\n3. Audience-appropriate\n4. Action-oriented with clear value proposition\n5. Structured for the platform's algorithm\n\nFocus on creating content that stops the scroll, delivers value, and encourages engagement.\n"

/-- `_get_hook_generation_template` (prompt_loader.py lines 98-122). -/
def hook_generation_template : PyStr :=
  pys "\nCreate 5 powerful hooks for a \x7bplatform\x7d video about \"\x7btopic\x7d\" targeting \x7btarget_audience\x7d with a \x7btone\x7d tone.\n\nEach hook should be:\n- 3-5 seconds long when spoken\n- Attention-grabbing from the first word\n- Relevant to the topic\n- Optimized for \x7bplatform\x7d's algorithm\n\nHooks should use techniques like:\n- Questions that create curiosity\n- Shocking statistics or facts\n- Bold statements or claims\n- Pattern interrupts\n- Emotional triggers\n\nTopic: \x7btopic\x7d\nPlatform: \x7bplatform\x7d\nTone: \x7btone\x7d\nTarget Audience: \x7btarget_audience\x7d\n\nGenerate hooks that make viewers stop scrolling immediately.\n"

/-- `_get_hashtag_generation_template` (prompt_loader.py lines 124-142). -/
def hashtag_generation_template : PyStr :=
  pys "\nGenerate strategic hashtags for a \x7bplatform\x7d video about \"\x7btopic\x7d\".\n\nConsider:\n- Topic: \x7btopic\x7d\n- Platform: \x7bplatform\x7d\n- Target Audience: \x7btarget_audience\x7d\n- Current Trends: \x7btrends_data\x7d\n\nProvide a mix of:\n1. High-volume trending hashtags (2-3)\n2. Medium-volume niche hashtags (3-4)\n3. Low-volume specific hashtags (2-3)\n4. Platform-specific hashtags (1-2)\n\nTotal: 8-12 hashtags optimized for discovery and engagement on \x7bplatform\x7d.\n"

/-- `_get_default_template` (prompt_loader.py lines 45-54). -/
def get_default_template (template_type _platform : PyStr) : PyStr :=
  if template_type = pys "content_generation" then content_generation_template
  else if template_type = pys "hook_generation" then hook_generation_template
  else if template_type = pys "hashtag_generation" then hashtag_generation_template
  else pys "Generate content about \x7btopic\x7d for \x7bplatform\x7d with \x7btone\x7d tone targeting \x7btarget_audience\x7d."

/-- `get_template` (prompt_loader.py lines 16-43), threading the instance
cache `self._cache` explicitly: returns the template and the updated cache. -/
def get_template (fs : TemplateFS) (cache : List (PyStr × PyStr))
    (template_type platform : PyStr) : PyStr × List (PyStr × PyStr) :=
  let cache_key := template_type ++ '_' :: platform
  match (cache.find? (fun kv => kv.1 == cache_key)).map (fun kv => kv.2) with
  | some t => (t, cache)
  | none =>
    let path0 := templatePath template_type platform
    let path1 :=
      if !fs.pathExists path0 then templatePath template_type (pys "general") else path0
    let template :=
      if !fs.pathExists path1 then get_default_template template_type platform
      else
        match fs.readFile path1 with
        | .ok s => s
        | .error _ => get_default_template template_type platform
    (template, cache ++ [(cache_key, template)])

/-! ## Orchestrator (`generate_content`, content_generator.py lines 37-136)

Settings come from `app/core/config.py`; the LangChain call `chain.arun(...)`
is the external generation backend, passed in as its outcome, and the awaited
`music_service.get_music_suggestions(...)` call is likewise passed in as its
outcome (the modelled adapter above computes that outcome).  Prompt assembly
(template load, trend block, platform specs) only feeds the backend call and
is absorbed by the `backend` parameter; the Weights & Biases logging is a
side effect with no influence on the returned record. -/

/-- The settings fields `generate_content` reads (config.py: the Spotify and
W&B credentials are `Optional[str]` defaulting to `None`). -/
structure GenSettings where
  OPENAI_MODEL : PyStr
  SPOTIFY_CLIENT_ID : Option PyStr
  SPOTIFY_CLIENT_SECRET : Option PyStr
deriving Repr

/-- Python truthiness of an `Optional[str]` setting. -/
def optTruthy : Option PyStr → Bool
  | none => false
  | some s => !s.isEmpty

/-- `MusicService.__init__` (music_service.py lines 15-27): a Spotify client
exists iff both credentials are truthy and `SpotifyClientCredentials`
construction succeeded (`initOk`). -/
def spotify_client_available (settings : GenSettings) (initOk : Bool) : Bool :=
  optTruthy settings.SPOTIFY_CLIENT_ID && optTruthy settings.SPOTIFY_CLIENT_SECRET && initOk

/-- A suggestion dict embedded back into `PyVal` (key order of the literals
in music_service.py; the `note` key exists only on fallback entries). -/
def musicToPyVal (s : MusicSuggestion) : PyVal :=
  .vdict
    ([(pys "name", .str s.name), (pys "artist", .str s.artist),
      (pys "spotify_url", .str s.spotify_url),
      (pys "preview_url", match s.preview_url with | none => .vnone | some u => .str u),
      (pys "duration_ms", .vint s.duration_ms),
      (pys "popularity", .vint s.popularity),
      (pys "energy_level", .str s.energy_level),
      (pys "platform_suitable", .str s.platform_suitable),
      (pys "tone_match", .str s.tone_match)] ++
     (match s.note with | none => [] | some n => [(pys "note", .str n)]))

/-- `generate_content` (content_generator.py lines 37-136).  The outer
`try`/`except Exception` rewraps every escaping exception as
`ContentGenerationError(f"Failed to generate content: {str(e)}")`. -/
def generate_content (settings : GenSettings) (backend : Except PyErr PyStr)
    (musicCall : Except PyErr (List MusicSuggestion)) (include_music : Bool) :
    Except PyErr PyDict :=
  let run : Except PyErr PyDict := do
    let result ← backend
    let content ← parse_generated_content result
    let content :=
      if include_music && optTruthy settings.SPOTIFY_CLIENT_ID then
        match musicCall with
        | .ok ms => dset content (pys "music_suggestions") (.vlist (ms.map musicToPyVal))
        | .error _ => dset content (pys "music_suggestions") (.vlist [])
      else content
    let content := dset content (pys "model_used") (.str settings.OPENAI_MODEL)
    match calculate_quality_score content with
    | some q => pure (dset content (pys "quality_score") (.vint (q : Int)))
    | none => .error { kind := .otherError, msg := pys "object of that type has no len()" }
  match run with
  | .ok content => .ok content
  | .error e =>
    .error { kind := .contentGenerationError, msg := pys "Failed to generate content: " ++ e.msg }

/-! ## Theorems -/

theorem layoutTimestamps_map_text (ss : List PyStr) (t : Nat) :
    (layoutTimestamps t ss).map TimestampSegment.text = ss := by
  induction ss generalizing t with
  | nil => rfl
  | cons s rest ih => simp [layoutTimestamps, ih]

theorem layoutTimestamps_head_start (ss : List PyStr) (t : Nat) (seg : TimestampSegment)
    (h : (layoutTimestamps t ss).head? = some seg) : seg.start = t := by
  cases ss with
  | nil => simp [layoutTimestamps] at h
  | cons s rest =>
    simp only [layoutTimestamps, List.head?_cons, Option.some.injEq] at h
    rw [← h]

theorem layoutTimestamps_chain (ss : List PyStr) (t : Nat) :
    List.Chain' (fun a b => a.stop = b.start) (layoutTimestamps t ss) := by
  induction ss generalizing t with
  | nil => simp [layoutTimestamps]
  | cons s rest ih =>
    rw [layoutTimestamps]
    refine List.chain'_cons'.mpr ⟨?_, ih _⟩
    intro y hy
    rw [layoutTimestamps_head_start rest _ y hy]

theorem layoutTimestamps_duration (ss : List PyStr) (t : Nat) (seg : TimestampSegment)
    (h : seg ∈ layoutTimestamps t ss) :
    seg.stop - seg.start = max 2 (min 4 (seg.text.length / 20)) := by
  induction ss generalizing t with
  | nil => simp [layoutTimestamps] at h
  | cons s rest ih =>
    simp only [layoutTimestamps, List.mem_cons] at h
    cases h with
    | inl h => subst h; simp
    | inr h => exact ih _ h

/-- Claim C1: for every script, the timestamp synthesizer returns exactly one
segment per non-empty period-delimited sentence, in sentence order (the empty
sequence when there are none); the first segment starts at 0, each segment's
`end` equals the next one's `start`, and each duration equals
`max(2, min(4, len(sentence) // 20))` for its sentence text. -/
theorem timestamp_synthesis_spec (script : PyStr) :
    (generate_timestamps script).map TimestampSegment.text = sentencesOf script ∧
    (generate_timestamps script).length = (sentencesOf script).length ∧
    (∀ seg, (generate_timestamps script).head? = some seg → seg.start = 0) ∧
    List.Chain' (fun a b => a.stop = b.start) (generate_timestamps script) ∧
    (∀ seg ∈ generate_timestamps script,
      seg.stop - seg.start = max 2 (min 4 (seg.text.length / 20))) := by
  refine ⟨layoutTimestamps_map_text _ _, ?_,
    fun seg h => layoutTimestamps_head_start _ _ _ h,
    layoutTimestamps_chain _ _,
    fun seg h => layoutTimestamps_duration _ _ _ h⟩
  simpa using congrArg List.length (layoutTimestamps_map_text (sentencesOf script) 0)

/-- Concrete instantiation of `timestamp_synthesis_spec` at the script
"Hi. Bye.", discharging its hypotheses. -/
theorem timestamp_synthesis_spec_witness :
    ((⟨0, 2, pys "Hi", pys "narration"⟩ : TimestampSegment).start = 0) ∧
    ((⟨2, 4, pys "Bye", pys "narration"⟩ : TimestampSegment).stop -
      (⟨2, 4, pys "Bye", pys "narration"⟩ : TimestampSegment).start =
      max 2 (min 4 ((pys "Bye").length / 20))) :=
  ⟨(timestamp_synthesis_spec (pys "Hi. Bye.")).2.2.1 _ (by decide),
   (timestamp_synthesis_spec (pys "Hi. Bye.")).2.2.2.2 _ (by decide)⟩

/-- Claim C3: parsing the semi-structured text
"HOOK: X\nSCRIPT: Y. Z.\nHASHTAGS: #a #b" yields hook "X", script "Y. Z.",
hashtags ["a", "b"], and exactly two timestamp segments (storyline stays
empty; the segments cover "Y" and "Z" back to back, two seconds each). -/
theorem parse_semi_structured_example :
    parse_generated_content (pys "HOOK: X\nSCRIPT: Y. Z.\nHASHTAGS: #a #b") =
      .ok [(pys "hook", .str (pys "X")),
           (pys "storyline", .str []),
           (pys "script", .str (pys "Y. Z.")),
           (pys "timestamps", .vlist
             [timestampToPyVal ⟨0, 2, pys "Y", pys "narration"⟩,
              timestampToPyVal ⟨2, 4, pys "Z", pys "narration"⟩]),
           (pys "hashtags", .vlist [.str (pys "a"), .str (pys "b")])] := by
  rfl

/-- Claim C2 counterexample: parsing the structured input
`{"hook":"H","storyline":"S","script":"T","hashtags":["a","b"]}` returns the
decoded object verbatim — the result carries NO "timestamps" entry at all
(`dget` yields `none`, not the claimed present-and-empty sequence). -/
theorem parse_json_missing_defaults_counterexample :
    parse_generated_content
        (pys "\x7b\"hook\":\"H\",\"storyline\":\"S\",\"script\":\"T\",\"hashtags\":[\"a\",\"b\"]\x7d") =
      .ok [(pys "hook", .str (pys "H")),
           (pys "storyline", .str (pys "S")),
           (pys "script", .str (pys "T")),
           (pys "hashtags", .vlist [.str (pys "a"), .str (pys "b")])] ∧
    dget [(pys "hook", .str (pys "H")),
          (pys "storyline", .str (pys "S")),
          (pys "script", .str (pys "T")),
          (pys "hashtags", .vlist [.str (pys "a"), .str (pys "b")])]
        (pys "timestamps") = none ∧
    (none : Option PyVal) ≠ some (.vlist []) := by
  refine ⟨rfl, rfl, ?_⟩
  simp

/-- Claim C2 (amended): when the trimmed raw text starts with a brace, parse
returns the JSON object's recognized entries 1:1 and leaves every missing
field absent (no defaulting, no timestamp synthesis): the result is exactly
the decoded object. -/
theorem parse_json_verbatim (raw : PyStr) (d : PyDict)
    (hbrace : (pyStrip raw).head? = some '\x7b')
    (hjson : json_loads raw = some d) :
    parse_generated_content raw = .ok d := by
  unfold parse_generated_content
  rw [if_pos hbrace, hjson]

/-- Concrete instantiation of `parse_json_verbatim` at the structured input
of the claim, discharging both hypotheses: the record has hook "H" and
hashtags ["a", "b"], and its entries are exactly the four decoded keys. -/
theorem parse_json_verbatim_witness :
    parse_generated_content
        (pys "\x7b\"hook\":\"H\",\"storyline\":\"S\",\"script\":\"T\",\"hashtags\":[\"a\",\"b\"]\x7d") =
      .ok [(pys "hook", .str (pys "H")),
           (pys "storyline", .str (pys "S")),
           (pys "script", .str (pys "T")),
           (pys "hashtags", .vlist [.str (pys "a"), .str (pys "b")])] :=
  parse_json_verbatim _ _ (by rfl) (by rfl)

/-- Claim C9 counterexample: the line "hook: see hashtags: #a #b" contains
the substring "hashtags:" (second conjunct), yet the parser opens the HOOK
section — `hook` swallows the whole tail and `hashtags` stays empty — because
the label tests are a chain of `elif`s and "hook:" matches first. -/
theorem hashtags_label_priority_counterexample :
    parse_generated_content (pys "hook: see hashtags: #a #b") =
      .ok [(pys "hook", .str (pys "see hashtags: #a #b")),
           (pys "storyline", .str []), (pys "script", .str []),
           (pys "timestamps", .vlist []), (pys "hashtags", .vlist [])] ∧
    strContains (pys "hashtags:")
      (pyLower (pyStrip (pys "hook: see hashtags: #a #b"))) = true := by
  exact ⟨rfl, rfl⟩

theorem strContains_ne_nil {needle hay : PyStr} (h : strContains needle hay = true)
    (hn : needle ≠ []) : hay ≠ [] := by
  cases hay with
  | nil =>
    simp only [strContains, List.isEmpty_iff] at h
    exact absurd h hn
  | cons c rest => simp

/-- Claim C9 (amended): a line whose lowercased stripped form contains
"hashtags:" and none of the higher-precedence label substrings "hook:",
"storyline:", "script:" opens the hashtags section — even mid-narration —
seeding the field from the text after the line's first colon; lines that do
contain a higher-precedence label open that section instead (see the
counterexample). -/
theorem hashtags_label_anywhere (l pre post : PyStr)
    (hnl : ¬ '\n' ∈ l)
    (hbrace : ¬ (pyStrip l).head? = some '\x7b')
    (hhook : strContains (pys "hook:") (pyLower (pyStrip l)) = false)
    (hstory : strContains (pys "storyline:") (pyLower (pyStrip l)) = false)
    (hscript : strContains (pys "script:") (pyLower (pyStrip l)) = false)
    (hhash : strContains (pys "hashtags:") (pyLower (pyStrip l)) = true)
    (hsplit : pySplitOnce ':' (pyStrip l) = some (pre, post)) :
    parse_generated_content l =
      .ok [(pys "hook", .str []), (pys "storyline", .str []), (pys "script", .str []),
           (pys "timestamps", .vlist []),
           (pys "hashtags", .vlist ((extractTags (pyStrip post)).map PyVal.str))] := by
  have hl1 : pySplit '\n' l = [l] := by
    unfold pySplit List.splitOn
    apply List.splitOnP_eq_single
    intro x hx
    simp only [beq_iff_eq]
    intro hc
    exact hnl (hc ▸ hx)
  have hline_ne : pyStrip l ≠ [] := by
    have h2 : pyLower (pyStrip l) ≠ [] := strContains_ne_nil hhash (by decide)
    intro h0
    apply h2
    rw [h0]
    rfl
  have hempty : (pyStrip l).isEmpty = false := by
    cases hps : pyStrip l with
    | nil => exact absurd hps hline_ne
    | cons c cs => rfl
  have hstep : processLine initParseState l =
      some { hook := [], storyline := [], script := [], timestamps := [],
             hashtags := extractTags (pyStrip post), cur := some .hashtags } := by
    unfold processLine
    simp [hempty, hhook, hstory, hscript, hhash, hsplit, initParseState]
  unfold parse_generated_content
  rw [if_neg hbrace, hl1]
  simp only [List.foldlM_cons, List.foldlM_nil, hstep, Option.bind_eq_bind, Option.some_bind]
  rfl

/-- Concrete instantiation of `hashtags_label_anywhere` at a narration line
that mentions "hashtags:" mid-text, discharging every hypothesis. -/
theorem hashtags_label_anywhere_witness :
    parse_generated_content (pys "narration mentions hashtags: #x #y") =
      .ok [(pys "hook", .str []), (pys "storyline", .str []), (pys "script", .str []),
           (pys "timestamps", .vlist []),
           (pys "hashtags", .vlist [.str (pys "x"), .str (pys "y")])] :=
  hashtags_label_anywhere (pys "narration mentions hashtags: #x #y")
    (pys "narration mentions hashtags") (pys " #x #y")
    (by decide) (by decide) (by decide) (by decide) (by decide) (by decide) (by decide)

theorem quality_score_le_ten (content : PyDict) (q : Nat)
    (h : calculate_quality_score content = some q) : q ≤ 10 := by
  unfold calculate_quality_score at h
  simp only [bind, Option.bind_eq_some, pure, Option.some.injEq] at h
  obtain ⟨s1, h1, s2, h2, s3, h3, s4, h4, hq⟩ := h
  omega

theorem quality_score_ten (content : PyDict) (sl sc : PyStr) (hs : List PyVal) (ts : PyVal)
    (hhook : dget content (pys "hook") = some (.str (pys "Great hook that's long enough")))
    (hsl : dget content (pys "storyline") = some (.str sl)) (hsl20 : 20 < sl.length)
    (hsc : dget content (pys "script") = some (.str sc)) (hsc50 : 50 < sc.length)
    (hhs : dget content (pys "hashtags") = some (.vlist hs)) (hhs3 : 3 ≤ hs.length)
    (hts : dget content (pys "timestamps") = some ts) (htst : pyTruthy ts = true) :
    calculate_quality_score content = some 10 := by
  have hslne : sl.isEmpty = false := by
    cases sl with
    | nil => simp at hsl20
    | cons a b => rfl
  have hscne : sc.isEmpty = false := by
    cases sc with
    | nil => simp at hsc50
    | cons a b => rfl
  have hhsne : hs.isEmpty = false := by
    cases hs with
    | nil => simp at hhs3
    | cons a b => rfl
  have t1 : pyTruthy (PyVal.str (pys "Great hook that's long enough")) = true := rfl
  have t2 : pyTruthy (PyVal.str sl) = true := by simp [pyTruthy, hslne]
  have t3 : pyTruthy (PyVal.str sc) = true := by simp [pyTruthy, hscne]
  have t4 : pyTruthy (PyVal.vlist hs) = true := by simp [pyTruthy, hhsne]
  simp only [calculate_quality_score, fieldScore, hhook, hsl, hsc, hhs, hts,
    t1, t2, t3, t4, htst, if_true, pyLenOpt]
  simp [hsl20, hsc50, hhs3]
  decide

/-- Claim C4: the quality score is always an integer at most 10 (and being a
natural number it is at least 0) — the `min 10` cap holds regardless of the
summed signals — and a record whose hook is "Great hook that's long enough"
with storyline longer than 20, script longer than 50, at least 3 hashtags and
a non-empty (truthy) timestamps value scores exactly 10. -/
theorem quality_score_spec :
    (∀ content q, calculate_quality_score content = some q → q ≤ 10) ∧
    (∀ content sl sc (hs : List PyVal) (ts : PyVal),
      dget content (pys "hook") = some (.str (pys "Great hook that's long enough")) →
      dget content (pys "storyline") = some (.str sl) → 20 < sl.length →
      dget content (pys "script") = some (.str sc) → 50 < sc.length →
      dget content (pys "hashtags") = some (.vlist hs) → 3 ≤ hs.length →
      dget content (pys "timestamps") = some ts → pyTruthy ts = true →
      calculate_quality_score content = some 10) :=
  ⟨quality_score_le_ten,
   fun content sl sc hs ts h1 h2 h3 h4 h5 h6 h7 h8 h9 =>
     quality_score_ten content sl sc hs ts h1 h2 h3 h4 h5 h6 h7 h8 h9⟩

/-- Concrete instantiation of `quality_score_spec` at a fully populated
record, discharging every hypothesis: it scores exactly 10 (which is ≤ 10,
discharging the bound part too on the same record). -/
theorem quality_score_spec_witness :
    calculate_quality_score
      [(pys "hook", .str (pys "Great hook that's long enough")),
       (pys "storyline", .str (pys "Detailed storyline with good content")),
       (pys "script",
        .str (pys "This is a comprehensive script with lots of valuable content that provides real value")),
       (pys "hashtags", .vlist [.str (pys "a"), .str (pys "b"), .str (pys "c")]),
       (pys "timestamps", .vlist [timestampToPyVal ⟨0, 2, pys "t", pys "narration"⟩])] =
      some 10 ∧ 10 ≤ 10 :=
  ⟨quality_score_spec.2
     [(pys "hook", .str (pys "Great hook that's long enough")),
      (pys "storyline", .str (pys "Detailed storyline with good content")),
      (pys "script",
       .str (pys "This is a comprehensive script with lots of valuable content that provides real value")),
      (pys "hashtags", .vlist [.str (pys "a"), .str (pys "b"), .str (pys "c")]),
      (pys "timestamps", .vlist [timestampToPyVal ⟨0, 2, pys "t", pys "narration"⟩])]
     (pys "Detailed storyline with good content")
     (pys "This is a comprehensive script with lots of valuable content that provides real value")
     [.str (pys "a"), .str (pys "b"), .str (pys "c")]
     (.vlist [timestampToPyVal ⟨0, 2, pys "t", pys "narration"⟩])
     (by rfl) (by rfl) (by decide) (by rfl) (by decide) (by rfl) (by decide) (by rfl) (by rfl),
   Nat.le_refl 10⟩

theorem failure_prefix_ne_nil (m : PyStr) :
    pys "Failed to generate content: " ++ m ≠ [] := by
  intro h
  have h2 := congrArg List.length h
  simp [pys] at h2

/-- Claim C5: whenever the backend call fails, or the backend succeeds but
the parse step fails (whatever the raised error), the orchestrator surfaces
exactly the single unified `ContentGenerationError` kind whose message is the
non-empty human-readable cause, and returns no (partial) content record —
the outcome is that error, not an `.ok`. -/
theorem generation_failure_unified (settings : GenSettings)
    (musicCall : Except PyErr (List MusicSuggestion)) (include_music : Bool)
    (backend : Except PyErr PyStr) :
    (∀ e, backend = .error e →
      generate_content settings backend musicCall include_music =
        .error ⟨.contentGenerationError, pys "Failed to generate content: " ++ e.msg⟩ ∧
      pys "Failed to generate content: " ++ e.msg ≠ []) ∧
    (∀ raw e, backend = .ok raw → parse_generated_content raw = .error e →
      generate_content settings backend musicCall include_music =
        .error ⟨.contentGenerationError, pys "Failed to generate content: " ++ e.msg⟩ ∧
      pys "Failed to generate content: " ++ e.msg ≠ []) := by
  constructor
  · intro e he
    subst he
    exact ⟨rfl, failure_prefix_ne_nil e.msg⟩
  · intro raw e hb hp
    subst hb
    refine ⟨?_, failure_prefix_ne_nil e.msg⟩
    unfold generate_content
    simp only [bind, Except.bind, hp]

/-- Concrete instantiation of `generation_failure_unified` with a backend
stub raising "LLM Error" (mirroring the repository's own unit test),
discharging its hypotheses. -/
theorem generation_failure_unified_witness :
    generate_content ⟨pys "gpt-4o", none, none⟩ (.error ⟨.otherError, pys "LLM Error"⟩)
      (.ok []) true =
      .error ⟨.contentGenerationError, pys "Failed to generate content: LLM Error"⟩ ∧
    pys "Failed to generate content: LLM Error" ≠ [] := by
  have h := (generation_failure_unified ⟨pys "gpt-4o", none, none⟩ (.ok []) true
    (.error ⟨.otherError, pys "LLM Error"⟩)).1 ⟨.otherError, pys "LLM Error"⟩ rfl
  refine ⟨h.1.trans ?_, by decide⟩
  rfl

theorem get_default_template_ne_nil (template_type platform : PyStr) :
    get_default_template template_type platform ≠ [] := by
  unfold get_default_template
  split
  · decide
  · split
    · decide
    · split
      · decide
      · decide

/-- Claim C6: `get_template` is total for every (kind, platform) pair —
unknown kinds and platforms included — over every template store (it returns
a plain string even though reads may fail, i.e. it never raises), resolves in
the order exact (kind, platform) file, then (kind, "general") file, then the
built-in default (the three known kinds' texts, or the minimal generic
fallback for unknown kinds, also used when a read fails), and the result is
non-empty whenever every stored template that a read returns is non-empty
(the built-in defaults are non-empty unconditionally). -/
theorem get_template_spec (fs : TemplateFS) (template_type platform : PyStr) :
    ((∀ p s, fs.readFile p = .ok s → s ≠ []) →
      (get_template fs [] template_type platform).1 ≠ []) ∧
    (fs.pathExists (templatePath template_type platform) = false →
      fs.pathExists (templatePath template_type (pys "general")) = false →
      (get_template fs [] template_type platform).1 =
        get_default_template template_type platform) ∧
    (∀ s, fs.pathExists (templatePath template_type platform) = true →
      fs.readFile (templatePath template_type platform) = .ok s →
      (get_template fs [] template_type platform).1 = s) ∧
    (∀ e, fs.pathExists (templatePath template_type platform) = true →
      fs.readFile (templatePath template_type platform) = .error e →
      (get_template fs [] template_type platform).1 =
        get_default_template template_type platform) ∧
    (∀ s, fs.pathExists (templatePath template_type platform) = false →
      fs.pathExists (templatePath template_type (pys "general")) = true →
      fs.readFile (templatePath template_type (pys "general")) = .ok s →
      (get_template fs [] template_type platform).1 = s) ∧
    get_default_template template_type platform ≠ [] := by
  have hdef := get_default_template_ne_nil template_type platform
  refine ⟨?_, ?_, ?_, ?_, ?_, hdef⟩
  · intro hread
    by_cases h0 : fs.pathExists (templatePath template_type platform) = true
    · cases hr : fs.readFile (templatePath template_type platform) with
      | ok s =>
        have : (get_template fs [] template_type platform).1 = s := by
          simp [get_template, h0, hr]
        rw [this]
        exact hread _ _ hr
      | error e =>
        have : (get_template fs [] template_type platform).1 =
            get_default_template template_type platform := by
          simp [get_template, h0, hr]
        rw [this]
        exact hdef
    · rw [Bool.not_eq_true] at h0
      by_cases h1 : fs.pathExists (templatePath template_type (pys "general")) = true
      · cases hr : fs.readFile (templatePath template_type (pys "general")) with
        | ok s =>
          have : (get_template fs [] template_type platform).1 = s := by
            simp [get_template, h0, h1, hr]
          rw [this]
          exact hread _ _ hr
        | error e =>
          have : (get_template fs [] template_type platform).1 =
              get_default_template template_type platform := by
            simp [get_template, h0, h1, hr]
          rw [this]
          exact hdef
      · rw [Bool.not_eq_true] at h1
        have : (get_template fs [] template_type platform).1 =
            get_default_template template_type platform := by
          simp [get_template, h0, h1]
        rw [this]
        exact hdef
  · intro h0 h1
    simp [get_template, h0, h1]
  · intro s h0 hr
    simp [get_template, h0, hr]
  · intro e h0 hr
    simp [get_template, h0, hr]
  · intro s h0 h1 hr
    simp [get_template, h0, h1, hr]

/-- Concrete instantiation of `get_template_spec` with an empty template
store and an unknown kind/platform pair, discharging its hypotheses: the
lookup returns the non-empty minimal generic fallback. -/
theorem get_template_spec_witness :
    (get_template ⟨fun _ => false, fun _ => .error ⟨.otherError, []⟩⟩ []
      (pys "weird_kind") (pys "mars")).1 =
      pys "Generate content about \x7btopic\x7d for \x7bplatform\x7d with \x7btone\x7d tone targeting \x7btarget_audience\x7d." ∧
    (get_template ⟨fun _ => false, fun _ => .error ⟨.otherError, []⟩⟩ []
      (pys "weird_kind") (pys "mars")).1 ≠ [] := by
  have h := get_template_spec ⟨fun _ => false, fun _ => .error ⟨.otherError, []⟩⟩
    (pys "weird_kind") (pys "mars")
  refine ⟨?_, h.1 (fun p s hs => by cases hs)⟩
  rw [h.2.1 rfl rfl]
  rfl

/-- Claim C7: whenever no catalog client is configured or the catalog search
fails (whatever the error), the adapter returns the deterministic fallback
list — a function of (topic, tone, platform) only, built as one generic entry
plus up to two tone-matched entries chosen by substring match on the tone —
which is non-empty, has at most 3 entries, and whose first entry carries
`platform_suitable = platform` and `tone_match = tone`. -/
theorem music_fallback_spec (topic tone platform : PyStr) (limit : Nat)
    (spotifyOk : Bool) (searchResult : Except PyErr (List Track))
    (hfail : spotifyOk = false ∨ ∃ e, searchResult = .error e) :
    get_music_suggestions spotifyOk searchResult topic tone platform limit =
      get_fallback_suggestions topic tone platform ∧
    (get_fallback_suggestions topic tone platform).length ≤ 3 ∧
    get_fallback_suggestions topic tone platform ≠ [] ∧
    (∀ s, (get_fallback_suggestions topic tone platform).head? = some s →
      s.platform_suitable = platform ∧ s.tone_match = tone) := by
  refine ⟨?_, ?_, ?_, ?_⟩
  · rcases hfail with h | ⟨e, h⟩
    · subst h
      rfl
    · subst h
      cases spotifyOk with
      | false => rfl
      | true => rfl
  · unfold get_fallback_suggestions
    simp only [List.length_take]
    omega
  · unfold get_fallback_suggestions
    simp [List.take_succ_cons]
  · intro s hs
    simp only [get_fallback_suggestions, List.take_succ_cons, List.head?_cons,
      Option.some.injEq] at hs
    subst hs
    exact ⟨rfl, rfl⟩

/-- Concrete instantiation of `music_fallback_spec` with no configured
client, discharging its hypotheses. -/
theorem music_fallback_spec_witness :
    get_music_suggestions false (.ok []) (pys "fitness") (pys "energetic") (pys "tiktok") 5 =
      get_fallback_suggestions (pys "fitness") (pys "energetic") (pys "tiktok") ∧
    (genericFallback (pys "energetic") (pys "tiktok")).platform_suitable = pys "tiktok" ∧
    (genericFallback (pys "energetic") (pys "tiktok")).tone_match = pys "energetic" := by
  have h := music_fallback_spec (pys "fitness") (pys "energetic") (pys "tiktok") 5 false
    (.ok []) (Or.inl rfl)
  exact ⟨h.1, h.2.2.2 (genericFallback (pys "energetic") (pys "tiktok")) (by rfl)⟩
theorem is_suitable_track_iff (track : Track) (platform : PyStr) :
    is_suitable_track track platform = true ↔
      (track.duration_ms ≤ duration_limits platform ∧
       (∃ s, track.preview_url = some s ∧ s ≠ []) ∧
       20 ≤ track.popularity.getD 0) := by
  unfold is_suitable_track
  by_cases h1 : track.duration_ms > duration_limits platform
  · rw [if_pos h1]
    simp
    omega
  · rw [if_neg h1]
    cases hp : track.preview_url with
    | none => simp [hp]
    | some s =>
      cases hs : s.isEmpty with
      | true =>
        have hnil : s = [] := by
          cases s with
          | nil => rfl
          | cons a b => simp at hs
        subst hnil
        simp [hp]
      | false =>
        have hsne : s ≠ [] := by
          cases s with
          | nil => simp at hs
          | cons a b => simp
        by_cases h3 : track.popularity.getD 0 < 20
        · simp [hp, hs, h3]
        · simp [hp, hs, h3]
          exact ⟨by omega, hsne, by omega⟩

theorem collectSuggestions_eq (tone platform : PyStr) (limit : Nat)
    (tracks : List Track) :
    ∀ acc : List MusicSuggestion,
      collectSuggestions tone platform limit acc tracks =
        acc ++ ((tracks.filter (fun tr => is_suitable_track tr platform)).take
          (limit - acc.length)).map (fun tr => trackSuggestion tr tone platform) := by
  induction tracks with
  | nil =>
    intro acc
    simp [collectSuggestions]
  | cons t rest ih =>
    intro acc
    rw [collectSuggestions]
    by_cases hlim : acc.length ≥ limit
    · rw [if_pos hlim]
      have hz : limit - acc.length = 0 := by omega
      simp [hz]
    · rw [if_neg hlim]
      by_cases hsuit : is_suitable_track t platform = true
      · rw [if_pos hsuit, ih]
        have hf : (t :: rest).filter (fun tr => is_suitable_track tr platform) =
            t :: rest.filter (fun tr => is_suitable_track tr platform) :=
          List.filter_cons_of_pos hsuit
        rw [hf]
        have hsub : limit - acc.length = (limit - (acc.length + 1)) + 1 := by omega
        rw [hsub, List.take_succ_cons, List.map_cons]
        simp
      · rw [if_neg hsuit, ih]
        have hf : (t :: rest).filter (fun tr => is_suitable_track tr platform) =
            rest.filter (fun tr => is_suitable_track tr platform) :=
          List.filter_cons_of_neg (by simpa using hsuit)
        rw [hf]

/-- Claim C8: a candidate track passes the suitability filter iff its
duration does not exceed the platform maximum (tiktok 60s, instagram 90s,
youtube 120s, 90s for any other platform — held in milliseconds), it has a
non-empty preview asset, and its popularity (defaulting to 0 when absent) is
at least 20; collection stops once `limit` suitable tracks are gathered (the
loop equals take-limit-of-filter), and when zero tracks pass the filter the
adapter returns the deterministic fallback list instead of an empty list. -/
theorem track_filter_spec :
    (∀ (track : Track) (platform : PyStr), is_suitable_track track platform = true ↔
      (track.duration_ms ≤ duration_limits platform ∧
       (∃ s, track.preview_url = some s ∧ s ≠ []) ∧
       20 ≤ track.popularity.getD 0)) ∧
    duration_limits (pys "tiktok") = 60000 ∧
    duration_limits (pys "instagram") = 90000 ∧
    duration_limits (pys "youtube") = 120000 ∧
    (∀ platform, platform ≠ pys "tiktok" → platform ≠ pys "instagram" →
      platform ≠ pys "youtube" → duration_limits platform = 90000) ∧
    (∀ tone platform (limit : Nat) (tracks : List Track),
      collectSuggestions tone platform limit [] tracks =
        ((tracks.filter (fun tr => is_suitable_track tr platform)).take limit).map
          (fun tr => trackSuggestion tr tone platform)) ∧
    (∀ topic tone platform (limit : Nat) (tracks : List Track),
      tracks.filter (fun tr => is_suitable_track tr platform) = [] →
      get_music_suggestions true (.ok tracks) topic tone platform limit =
        get_fallback_suggestions topic tone platform) := by
  refine ⟨is_suitable_track_iff, rfl, rfl, rfl, ?_, ?_, ?_⟩
  · intro platform h1 h2 h3
    unfold duration_limits
    rw [if_neg h1, if_neg h2, if_neg h3]
  · intro tone platform limit tracks
    simpa using collectSuggestions_eq tone platform limit tracks []
  · intro topic tone platform limit tracks hempty
    have hc := collectSuggestions_eq tone platform limit tracks []
    rw [hempty] at hc
    simp only [List.take_nil, List.map_nil, List.append_nil, List.nil_append] at hc
    unfold get_music_suggestions
    simp [hc]

/-- Concrete instantiation of `track_filter_spec`: a 50-second, popular
track with a preview passes the tiktok filter, and a search returning only a
preview-less track (zero pass the filter) falls back to the deterministic
list. -/
theorem track_filter_spec_witness :
    is_suitable_track
      ⟨pys "Song", [pys "A"], pys "url", some (pys "p"), 50000, some 30⟩
      (pys "tiktok") = true ∧
    get_music_suggestions true
      (.ok [⟨pys "Song", [pys "A"], pys "url", none, 50000, some 30⟩])
      (pys "t") (pys "casual") (pys "tiktok") 5 =
      get_fallback_suggestions (pys "t") (pys "casual") (pys "tiktok") := by
  constructor
  · exact (track_filter_spec.1
      ⟨pys "Song", [pys "A"], pys "url", some (pys "p"), 50000, some 30⟩
      (pys "tiktok")).mpr ⟨by decide, ⟨pys "p", rfl, by decide⟩, by decide⟩
  · exact track_filter_spec.2.2.2.2.2.2 (pys "t") (pys "casual") (pys "tiktok") 5
      [⟨pys "Song", [pys "A"], pys "url", none, 50000, some 30⟩] (by decide)
theorem dget_cons (kv : PyStr × PyVal) (l : PyDict) (k : PyStr) :
    dget (kv :: l) k = if kv.1 == k then some kv.2 else dget l k := by
  cases h : kv.1 == k with
  | true => simp [dget, List.find?, h]
  | false => simp [dget, List.find?, h]

theorem dget_dset_self (d : PyDict) (k : PyStr) (v : PyVal) :
    dget (dset d k v) k = some v := by
  induction d with
  | nil => simp [dset, dget_cons]
  | cons kv rest ih =>
    rw [dset]
    by_cases h : (kv.1 == k) = true
    · rw [if_pos h]
      simp [dget_cons]
    · rw [if_neg h]
      rw [dget_cons]
      simp only [h, Bool.false_eq_true, if_false]
      exact ih

theorem dget_dset_ne (d : PyDict) (k k2 : PyStr) (v : PyVal)
    (h : (k == k2) = false) :
    dget (dset d k v) k2 = dget d k2 := by
  induction d with
  | nil => simp [dset, dget_cons, h, dget]
  | cons kv rest ih =>
    rw [dset]
    by_cases hk : (kv.1 == k) = true
    · rw [if_pos hk]
      rw [beq_iff_eq] at hk
      rw [dget_cons, dget_cons]
      have h1 : (((k, v) : PyStr × PyVal).1 == k2) = false := h
      have h2 : (kv.1 == k2) = false := by
        rw [hk]
        exact h
      rw [h1, h2]
      simp
    · rw [if_neg hk]
      rw [dget_cons, dget_cons]
      cases h2 : kv.1 == k2 with
      | true => simp
      | false =>
        simp only [Bool.false_eq_true, if_false]
        exact ih

/-- Claim C10 (amended): the orchestrator attaches a `music_suggestions`
entry only when `include_music` is true and `SPOTIFY_CLIENT_ID` is truthy;
otherwise the adapter call is never consulted (the result does not depend on
its outcome) and no `music_suggestions` entry is added (the entry is absent
whenever the parsed content itself lacks one — always, for the line-oriented
branch); when the attach condition holds and the adapter call raises, the
entry is set to the empty list.  However — unlike the original claim — the
adapter's no-credentials fallback list IS reachable through the orchestrator:
with the client id set but the secret missing, the adapter runs without a
client and its fallback list is attached (see the counterexample). -/
theorem music_attach_spec (settings : GenSettings) (backend : Except PyErr PyStr)
    (m1 m2 : Except PyErr (List MusicSuggestion)) (include_music : Bool) :
    ((include_music && optTruthy settings.SPOTIFY_CLIENT_ID) = false →
      generate_content settings backend m1 include_music =
        generate_content settings backend m2 include_music) ∧
    ((include_music && optTruthy settings.SPOTIFY_CLIENT_ID) = false →
      ∀ raw c d, backend = .ok raw → parse_generated_content raw = .ok c →
        dget c (pys "music_suggestions") = none →
        generate_content settings backend m1 include_music = .ok d →
        dget d (pys "music_suggestions") = none) ∧
    (∀ e d, (include_music && optTruthy settings.SPOTIFY_CLIENT_ID) = true →
      m1 = .error e →
      generate_content settings backend m1 include_music = .ok d →
      dget d (pys "music_suggestions") = some (.vlist [])) := by
  refine ⟨?_, ?_, ?_⟩
  · intro hcond
    unfold generate_content
    simp only [hcond, Bool.false_eq_true, if_false]
  · intro hcond raw c d hb hp hnone hgen
    subst hb
    unfold generate_content at hgen
    simp only [bind, Except.bind, hp, hcond, Bool.false_eq_true, if_false] at hgen
    cases hq : calculate_quality_score (dset c (pys "model_used") (.str settings.OPENAI_MODEL)) with
    | none =>
      rw [hq] at hgen
      simp at hgen
    | some q =>
      rw [hq] at hgen
      simp only [pure, Except.pure, Except.ok.injEq] at hgen
      subst hgen
      rw [dget_dset_ne _ _ _ _ (by decide), dget_dset_ne _ _ _ _ (by decide)]
      exact hnone
  · intro e d hcond hm hgen
    subst hm
    cases hb : backend with
    | error eb =>
      rw [hb] at hgen
      simp [generate_content, bind, Except.bind] at hgen
    | ok raw =>
      rw [hb] at hgen
      unfold generate_content at hgen
      cases hp : parse_generated_content raw with
      | error ep =>
        simp only [bind, Except.bind, hp] at hgen
        simp at hgen
      | ok c =>
        simp only [bind, Except.bind, hp, hcond, if_true] at hgen
        cases hq : calculate_quality_score
            (dset (dset c (pys "music_suggestions") (.vlist []))
              (pys "model_used") (.str settings.OPENAI_MODEL)) with
        | none =>
          rw [hq] at hgen
          simp at hgen
        | some q =>
          rw [hq] at hgen
          simp only [pure, Except.pure, Except.ok.injEq] at hgen
          subst hgen
          rw [dget_dset_ne _ _ _ _ (by decide), dget_dset_ne _ _ _ _ (by decide)]
          exact dget_dset_self _ _ _

/-- Claim C10 counterexample: with `SPOTIFY_CLIENT_ID` set but
`SPOTIFY_CLIENT_SECRET` absent, no Spotify client exists (second conjunct),
yet the orchestrator — which tests only the id — invokes the adapter, so the
returned record carries the adapter's no-credentials fallback list: a
`music_suggestions` entry holding the generic fallback suggestion, neither
absent nor empty. -/
theorem music_attach_counterexample :
    ((generate_content ⟨pys "gpt-4o", some (pys "cid"), none⟩ (.ok (pys "HOOK: hi"))
        (.ok (get_music_suggestions
          (spotify_client_available ⟨pys "gpt-4o", some (pys "cid"), none⟩ true)
          (.ok []) (pys "t") (pys "casual") (pys "instagram") 5)) true).toOption.bind
      (fun d => dget d (pys "music_suggestions"))) =
      some (.vlist [musicToPyVal (genericFallback (pys "casual") (pys "instagram"))]) ∧
    spotify_client_available ⟨pys "gpt-4o", some (pys "cid"), none⟩ true = false ∧
    musicToPyVal (genericFallback (pys "casual") (pys "instagram")) ≠ .vlist [] ∧
    some (.vlist [musicToPyVal (genericFallback (pys "casual") (pys "instagram"))]) ≠
      (none : Option PyVal) := by
  refine ⟨rfl, rfl, ?_, by simp⟩
  simp [musicToPyVal]

/-- Concrete instantiation of `music_attach_spec`, discharging its
hypotheses: with no client id the result is independent of the adapter
outcome, and with full credentials a raising adapter yields an empty
`music_suggestions` list. -/
theorem music_attach_spec_witness :
    generate_content ⟨pys "gpt-4o", none, none⟩ (.ok (pys "HOOK: hi")) (.ok []) true =
      generate_content ⟨pys "gpt-4o", none, none⟩ (.ok (pys "HOOK: hi"))
        (.error ⟨.otherError, pys "boom"⟩) true ∧
    dget [(pys "hook", .str (pys "hi")), (pys "storyline", .str []),
          (pys "script", .str []), (pys "timestamps", .vlist []),
          (pys "hashtags", .vlist []), (pys "music_suggestions", .vlist []),
          (pys "model_used", .str (pys "gpt-4o")), (pys "quality_score", .vint 0)]
        (pys "music_suggestions") = some (.vlist []) :=
  ⟨(music_attach_spec ⟨pys "gpt-4o", none, none⟩ (.ok (pys "HOOK: hi"))
      (.ok []) (.error ⟨.otherError, pys "boom"⟩) true).1 rfl,
   (music_attach_spec ⟨pys "gpt-4o", some (pys "cid"), some (pys "sec")⟩
      (.ok (pys "HOOK: hi")) (.error ⟨.otherError, pys "boom"⟩) (.ok []) true).2.2
     ⟨.otherError, pys "boom"⟩
     [(pys "hook", .str (pys "hi")), (pys "storyline", .str []),
      (pys "script", .str []), (pys "timestamps", .vlist []),
      (pys "hashtags", .vlist []), (pys "music_suggestions", .vlist []),
      (pys "model_used", .str (pys "gpt-4o")), (pys "quality_score", .vint 0)]
     rfl rfl (by rfl)⟩

/-- Claim C6 counterexample: over a template store in which the exact
(kind, platform) file exists (second conjunct) but reads back empty (third
conjunct), `get_template` returns the empty string — prompt_loader.py
line 36 returns `f.read()` verbatim — falsifying the claimed unconditional
non-emptiness even for the known kind "content_generation". -/
theorem get_template_empty_file_counterexample :
    (get_template ⟨fun _ => true, fun _ => .ok []⟩ []
      (pys "content_generation") (pys "instagram")).1 = [] ∧
    (⟨fun _ => true, fun _ => .ok []⟩ : TemplateFS).pathExists
      (templatePath (pys "content_generation") (pys "instagram")) = true ∧
    (⟨fun _ => true, fun _ => .ok []⟩ : TemplateFS).readFile
      (templatePath (pys "content_generation") (pys "instagram")) = .ok [] := by
  exact ⟨rfl, rfl, rfl⟩
